import Mathlib

/-!
Verification of the gtask-mcp-server repository (src/main.py, src/task_client.py,
src/config.py) against its natural-language specification.

The development shallowly embeds the parts of the program the claims are about:

* Python dictionaries holding task resources become association lists over a
  small JSON-like value type, with the key-update operation of Python dicts.
* `TaskClient.from_oauth_config` becomes a pure function over an environment
  that records the token-file contents and the outcomes of the refresh
  exchange, the interactive flow and the token-file write; the function
  returns the result together with a trace of which effects ran.
* `get_task_client` (module-level lazy singleton) becomes a two-thread
  interleaving semantics: each thread runs the statements of the function as
  atomic steps and a schedule picks which thread steps next.
* Date handling (datetime.now, astimezone, isoformat, strftime, strptime with
  the format %d/%m/%Y) is embedded over microsecond counts since
  0001-01-01T00:00:00 in the proleptic Gregorian calendar, matching CPython
  semantics including the regex-based strptime field widths.
* Attribute lookup on TaskClient instances becomes a lookup in the table of
  method names the class actually defines.
-/

/-! ## JSON-like dictionaries (Python dict with string keys) -/

/-- A JSON-ish value stored in a task resource dictionary. -/
inductive JVal where
  | str (s : String)
  | jnull
deriving DecidableEq, Repr

/-- A Python dict with string keys, as an ordered association list. -/
abbrev Dict := List (String × JVal)

/-- Python d[k] = v : overwrite the value in place if the key is present
(keeping its position, as Python dicts do), append otherwise. -/
def dset : Dict → String → JVal → Dict
  | [], k, v => [(k, v)]
  | (k1, v1) :: rest, k, v =>
      if k1 = k then (k, v) :: rest else (k1, v1) :: dset rest k v

/-- Python d.get(k) : the value at the key, if present. -/
def dget : Dict → String → Option JVal
  | [], _ => none
  | (k1, v1) :: rest, k => if k1 = k then some v1 else dget rest k

/-! ## Task Service Facade bodies (task_client.py)

`task_update` (lines 91-104): fetch the current task, overwrite only the
fields whose argument is not None, submit the full dict. We embed the
in-memory mutation of the fetched dict. -/

/-- Body of TaskClient.task_update applied to the fetched task dict:
if title is not None: current[title] = title; likewise notes and due. -/
def task_update_body (current : Dict) (title description due : Option String) : Dict :=
  let c1 := match title with
    | none => current
    | some t => dset current "title" (.str t)
  let c2 := match description with
    | none => c1
    | some d => dset c1 "notes" (.str d)
  match due with
  | none => c2
  | some d => dset c2 "due" (.str d)

/-! ## Credential Manager (TaskClient.from_oauth_config, task_client.py 18-48) -/

/-- The google.oauth2 Credentials object, as the fields the control flow of
from_oauth_config reads. In google-auth, valid is derived:
valid = (token is not None) and (not expired). -/
structure Creds where
  hasToken : Bool
  expired : Bool
  hasRefreshToken : Bool
  scopes : List String
deriving DecidableEq, Repr

/-- The google-auth property credentials.valid. -/
def Creds.valid (c : Creds) : Bool := c.hasToken && !c.expired

/-- Contents of the token-store file when it exists: either malformed JSON or
a schema mismatch (both make Credentials.from_authorized_user_file raise a
ValueError), or a well-formed stored credential. -/
inductive TokenFile where
  | malformed
  | stored (c : Creds)
deriving DecidableEq, Repr

deriving instance DecidableEq for Except

/-- Environment for one run of from_oauth_config: the state of the world the
call observes. refreshResult is the outcome of credentials.refresh(Request())
if it is attempted; flowResult the outcome of flow.run_local_server; writeOk
whether opening and writing the token file succeeds. -/
structure OEnv where
  tokenFile : Option TokenFile
  requestedScopes : List String
  refreshResult : Except String Creds
  flowResult : Except String Creds
  writeOk : Bool
deriving DecidableEq, Repr

/-- The exceptions from_oauth_config can let escape. -/
inductive OErr where
  | loadError
  | refreshError (msg : String)
  | flowError (msg : String)
  | writeError
deriving DecidableEq, Repr

/-- Which effectful steps ran during a call of from_oauth_config. -/
structure Trace where
  refreshCalled : Bool
  flowCalled : Bool
  fileWritten : Bool
deriving DecidableEq, Repr

/-- Credentials.from_authorized_user_file: raises on a malformed file, and
constructs the credential with the REQUESTED scopes attached (the library
never compares stored scopes with requested ones). Returns none when the
file does not exist (the token_file.exists() guard in the source). -/
def loadCreds (env : OEnv) : Except OErr (Option Creds) :=
  match env.tokenFile with
  | none => .ok none
  | some .malformed => .error .loadError
  | some (.stored c) => .ok (some { c with scopes := env.requestedScopes })

/-- The token-file write at lines 43-44, reached after a successful refresh or
interactive flow. The final credentials-is-None guard of the source is dead
code in the typed model (both branches produce a credential or raise). -/
def persistAndReturn (env : OEnv) (c : Creds) (tr : Trace) : Except OErr Creds × Trace :=
  if env.writeOk then (.ok c, { tr with fileWritten := true })
  else (.error .writeError, tr)

/-- Lines 34-38: if credentials and credentials.expired and
credentials.refresh_token: credentials.refresh(Request()) else run the
interactive flow. A raise inside refresh propagates: there is no fallback. -/
def refreshOrFlow (env : OEnv) (credentials : Option Creds) : Except OErr Creds × Trace :=
  match credentials with
  | some c =>
      if c.expired && c.hasRefreshToken then
        match env.refreshResult with
        | .error m => (.error (.refreshError m), ⟨true, false, false⟩)
        | .ok c2 => persistAndReturn env c2 ⟨true, false, false⟩
      else
        match env.flowResult with
        | .error m => (.error (.flowError m), ⟨false, true, false⟩)
        | .ok c2 => persistAndReturn env c2 ⟨false, true, false⟩
  | none =>
      match env.flowResult with
      | .error m => (.error (.flowError m), ⟨false, true, false⟩)
      | .ok c2 => persistAndReturn env c2 ⟨false, true, false⟩

/-- TaskClient.from_oauth_config, lines 18-48 of task_client.py, as a pure
function of the environment, returning the outcome and the effect trace. -/
def from_oauth_config (env : OEnv) : Except OErr Creds × Trace :=
  match loadCreds env with
  | .error e => (.error e, ⟨false, false, false⟩)
  | .ok credentials =>
      match credentials with
      | some c => if c.valid then (.ok c, ⟨false, false, false⟩) else refreshOrFlow env (some c)
      | none => refreshOrFlow env none

/-! ## Lazy singleton initialization (main.py, get_task_client, lines 19-31)

The function guards initialization only with an unsynchronized check of the
module-level variable. We model two callers running its statements as atomic
steps, interleaved by a schedule. The step at pc 1 models the whole call of
TaskClient.from_oauth_config on first use (one interactive-flow invocation
and one token-file write, counted in the globals); it blocks on I/O, so other
threads can run between the check, the construction and the assignment. -/

/-- One caller of get_task_client: its program counter and, when finished, the
id of the credential its handle carries. pc 0 = about to test whether
_task_client is None; pc 1 = about to run from_oauth_config; pc 2 = about to
assign to _task_client; pc 3 = returned. -/
structure ThreadSt where
  pc : Nat
  res : Nat
deriving DecidableEq, Repr

/-- Global state shared by the callers: the module variable _task_client (id
of the stored client credential, if set), and how many interactive-flow
invocations and token-file writes have happened in total. -/
structure SState where
  taskClient : Option Nat
  flowCount : Nat
  writeCount : Nat
  t0 : ThreadSt
  t1 : ThreadSt
deriving DecidableEq, Repr

/-- One step of one caller of get_task_client over the shared globals. Each
interactive flow mints a fresh credential, identified by the number of flow
invocations that preceded it. -/
def stepThread (client : Option Nat) (fc wc : Nat) (t : ThreadSt) :
    (Option Nat × Nat × Nat) × ThreadSt :=
  match t.pc with
  | 0 =>
      match client with
      | none => ((client, fc, wc), { t with pc := 1 })
      | some c => ((client, fc, wc), { pc := 3, res := c })
  | 1 => ((client, fc + 1, wc + 1), { pc := 2, res := fc })
  | 2 => ((some t.res, fc, wc), { t with pc := 3 })
  | _ => ((client, fc, wc), t)

/-- Run one scheduled step: false steps caller 0, true steps caller 1. -/
def step (s : SState) (who : Bool) : SState :=
  if who then
    let r := stepThread s.taskClient s.flowCount s.writeCount s.t1
    { taskClient := r.1.1, flowCount := r.1.2.1, writeCount := r.1.2.2, t0 := s.t0, t1 := r.2 }
  else
    let r := stepThread s.taskClient s.flowCount s.writeCount s.t0
    { taskClient := r.1.1, flowCount := r.1.2.1, writeCount := r.1.2.2, t0 := r.2, t1 := s.t1 }

/-- Initial state: _task_client is None, no effects yet, both callers about
to make their first call. -/
def initState : SState :=
  { taskClient := none, flowCount := 0, writeCount := 0, t0 := ⟨0, 0⟩, t1 := ⟨0, 0⟩ }

/-- Run a whole schedule from the initial state. -/
def runSched (sched : List Bool) : SState := sched.foldl step initState

/-- A schedule in which both callers pass the None check before either has
assigned the module variable. -/
def racySched : List Bool := [false, true, false, false, true, true]

/-- A schedule in which caller 0 completes its whole call before caller 1
starts: check, construct, assign, then the second caller checks. -/
def serialSched : List Bool := [false, false, false, true]

/-! ## Dates and times

Instants are microsecond counts since 0001-01-01T00:00:00 (proleptic
Gregorian), the calendar used by the Python datetime module; day index 0
(= Python ordinal 1) is a Monday. -/

/-- Microseconds in a day. -/
def usPerDay : Nat := 86400000000

/-- Gregorian leap year. -/
def isLeap (y : Nat) : Bool := y % 4 == 0 && (y % 100 != 0 || y % 400 == 0)

/-- Length of a month. -/
def daysInMonth (y m : Nat) : Nat :=
  if m = 2 then (if isLeap y then 29 else 28)
  else if m = 4 ∨ m = 6 ∨ m = 9 ∨ m = 11 then 30 else 31

/-- Civil date from a day index (0 = 0001-01-01), by the standard
era-of-400-years computation. -/
def civilFromDayIndex (n : Nat) : Nat × Nat × Nat :=
  let z := n + 306
  let era := z / 146097
  let doe := z % 146097
  let yoe := (doe - doe / 1460 + doe / 36524 - doe / 146096) / 365
  let y := yoe + era * 400
  let doy := doe - (365 * yoe + yoe / 4 - yoe / 100)
  let mp := (5 * doy + 2) / 153
  let d := doy - (153 * mp + 2) / 5 + 1
  let m := if mp < 10 then mp + 3 else mp - 9
  (if m ≤ 2 then y + 1 else y, m, d)

/-- Day index (0 = 0001-01-01) of a civil date. -/
def dayIndexOfCivil (y m d : Nat) : Nat :=
  let yA := if m ≤ 2 then y - 1 else y
  let era := yA / 400
  let yoe := yA % 400
  let mp := if m ≤ 2 then m + 9 else m - 3
  let doy := (153 * mp + 2) / 5 + d - 1
  let doe := yoe * 365 + yoe / 4 - yoe / 100 + doy
  era * 146097 + doe - 306

/-- The instant, in microseconds since 0001-01-01T00:00:00, of a civil
date-time. -/
def instantUs (y m d h mi s us : Nat) : Nat :=
  dayIndexOfCivil y m d * usPerDay + h * 3600000000 + mi * 60000000 + s * 1000000 + us

/-- Decimal digit character. -/
def digitChar (n : Nat) : Char := Char.ofNat (48 + n % 10)

/-- Two-digit zero-padded decimal. -/
def pad2 (n : Nat) : String := String.mk [digitChar (n / 10), digitChar n]

/-- Four-digit zero-padded decimal. -/
def pad4 (n : Nat) : String :=
  String.mk [digitChar (n / 1000), digitChar (n / 100), digitChar (n / 10), digitChar n]

/-- Six-digit zero-padded decimal (the %f directive of strftime). -/
def pad6 (n : Nat) : String :=
  String.mk [digitChar (n / 100000), digitChar (n / 10000), digitChar (n / 1000),
    digitChar (n / 100), digitChar (n / 10), digitChar n]

/-- strftime with the format used by the source, %Y-%m-%dT%H:%M:%S.%fZ :
the wall-clock fields of the instant, microseconds always printed on six
digits, and a literal Z appended whatever clock produced the instant. -/
def fmtMicroZ (wallUs : Nat) : String :=
  let c := civilFromDayIndex (wallUs / usPerDay)
  let rem := wallUs % usPerDay
  pad4 c.1 ++ "-" ++ pad2 c.2.1 ++ "-" ++ pad2 c.2.2 ++ "T" ++
    pad2 (rem / 3600000000) ++ ":" ++ pad2 (rem % 3600000000 / 60000000) ++ ":" ++
    pad2 (rem % 60000000 / 1000000) ++ "." ++ pad6 (rem % 1000000) ++ "Z"

/-- The date-time part of datetime.isoformat(): fractional seconds are
printed (on six digits) only when the microsecond field is nonzero. -/
def isoDateTimePart (wallUs : Nat) : String :=
  let c := civilFromDayIndex (wallUs / usPerDay)
  let rem := wallUs % usPerDay
  let base := pad4 c.1 ++ "-" ++ pad2 c.2.1 ++ "-" ++ pad2 c.2.2 ++ "T" ++
    pad2 (rem / 3600000000) ++ ":" ++ pad2 (rem % 3600000000 / 60000000) ++ ":" ++
    pad2 (rem % 60000000 / 1000000)
  if rem % 1000000 = 0 then base else base ++ "." ++ pad6 (rem % 1000000)

/-- The UTC-offset suffix isoformat prints for an aware datetime. -/
def utcoffsetStr (offMin : Int) : String :=
  (if offMin < 0 then "-" else "+") ++ pad2 (offMin.natAbs / 60) ++ ":" ++ pad2 (offMin.natAbs % 60)

/-- isoformat() of an aware datetime whose wall clock reads the given
instant and whose timezone has the given offset in minutes. -/
def isoformatAware (wallUs : Nat) (offMin : Int) : String :=
  isoDateTimePart wallUs ++ utcoffsetStr offMin

/-- English weekday names, Monday first (Python weekday numbering). -/
def weekdayNames : List String :=
  ["Monday", "Tuesday", "Wednesday", "Thursday", "Friday", "Saturday", "Sunday"]

/-- strftime %A: full English weekday name. Day index 0 (0001-01-01) is a
Monday. -/
def weekdayName (wallUs : Nat) : String :=
  weekdayNames.getD (wallUs / usPerDay % 7) ""

/-- The facts about the outside world a tool call observes: the current UTC
instant, and the offset of the host machine local timezone from UTC. -/
structure World where
  utcNowUs : Nat
  hostOffsetMin : Int
deriving DecidableEq, Repr

/-- datetime.now() with no argument: the NAIVE local wall clock, that is the
UTC instant shifted by the host timezone offset. -/
def datetime_now_naive_us (w : World) : Nat :=
  ((w.utcNowUs : Int) + w.hostOffsetMin * 60000000).toNat

/-- datetime.now(timezone.utc).astimezone(timezone(timedelta(hours=5,
minutes=30))): the current instant attached to the fixed UTC+05:30 zone; its
wall clock reads the UTC instant shifted forward by 330 minutes. The host
timezone plays no part in either call. -/
def ist_wall_us (w : World) : Nat := w.utcNowUs + 19800000000

/-- The get_current_datetime tool (main.py lines 33-41): a record with the
single key local_time, holding isoformat of the UTC+05:30 datetime, a space,
and the %A weekday name. -/
def get_current_datetime (w : World) : List (String × String) :=
  [("local_time", isoformatAware (ist_wall_us w) 330 ++ " " ++ weekdayName (ist_wall_us w))]

/-- Body of TaskClient.task_complete (task_client.py lines 106-113) applied
to the fetched task dict: set status to completed and completed to
strftime(%Y-%m-%dT%H:%M:%S.%fZ) of datetime.now() - the NAIVE LOCAL clock. -/
def task_complete_body (current : Dict) (w : World) : Dict :=
  dset (dset current "status" (.str "completed"))
    "completed" (.str (fmtMicroZ (datetime_now_naive_us w)))

/-! ## strptime with format %d/%m/%Y (CPython semantics)

CPython strptime compiles the format to a regex: %d becomes
(3[01]|[12][0-9]|0[1-9]|[1-9]), %m becomes (1[0-2]|0[1-9]|[1-9]), %Y becomes
([0-9][0-9][0-9][0-9]); the whole input must be consumed.  So day and month
may be one OR two digits; the year must be exactly four.  The parsed fields
are then passed to the datetime constructor, which checks the day against
the month length and rejects year 0. -/

/-- Decimal value of a digit character. -/
def digitVal (c : Char) : Option Nat :=
  if 48 ≤ c.toNat ∧ c.toNat ≤ 57 then some (c.toNat - 48) else none

/-- Match the day or month field: a two-digit value in 1..maxv, or a single
digit 1-9 (followed by whatever comes next, which the caller checks is a
slash). Mirrors the regex alternations of the %d and %m directives. -/
def parse12 (maxv : Nat) : List Char → Option (Nat × List Char)
  | [] => none
  | [c] =>
      match digitVal c with
      | some a => if 1 ≤ a then some (a, []) else none
      | none => none
  | c1 :: c2 :: rest =>
      match digitVal c1, digitVal c2 with
      | some a, some b =>
          let v := 10 * a + b
          if 1 ≤ v ∧ v ≤ maxv then some (v, rest) else none
      | some a, none => if 1 ≤ a then some (a, c2 :: rest) else none
      | none, _ => none

/-- Match the %Y field: exactly four digits. -/
def parse4 : List Char → Option (Nat × List Char)
  | c1 :: c2 :: c3 :: c4 :: rest =>
      match digitVal c1, digitVal c2, digitVal c3, digitVal c4 with
      | some a, some b, some c, some d => some (a * 1000 + b * 100 + c * 10 + d, rest)
      | _, _, _, _ => none
  | _ => none

/-- datetime.strptime(s, "%d/%m/%Y") : some (year, month, day) when the call
returns, none when it raises ValueError (either the regex does not consume
the whole string, or the datetime constructor rejects the field values). -/
def strptimeDMY (s : String) : Option (Nat × Nat × Nat) :=
  match parse12 31 s.toList with
  | none => none
  | some (d, r1) =>
      match r1 with
      | [] => none
      | c :: r2 =>
          if c = '/' then
            match parse12 12 r2 with
            | none => none
            | some (m, r3) =>
                match r3 with
                | [] => none
                | c2 :: r4 =>
                    if c2 = '/' then
                      match parse4 r4 with
                      | none => none
                      | some (y, r5) =>
                          if r5 = [] ∧ 1 ≤ y ∧ d ≤ daysInMonth y m then some (y, m, d)
                          else none
                    else none
          else none

/-- strftime(%Y-%m-%dT%H:%M:%S.%fZ) of the midnight datetime strptime
produced: time of day and microseconds are all zero. -/
def fmtMidnightZ (y m d : Nat) : String :=
  pad4 y ++ "-" ++ pad2 m ++ "-" ++ pad2 d ++ "T00:00:00.000000Z"

/-! ## Tool wrappers around the facade (main.py add_task 87-103,
update_task 117-132) -/

/-- A call the tool wrapper makes into the TaskClient facade. -/
inductive FacadeCall where
  | taskAdd (tasklistId title : String) (description due : Option String)
  | taskUpdate (tasklistId taskId : String) (title description due : Option String)
deriving DecidableEq, Repr

/-- The exception a tool wrapper raises before reaching the facade. -/
inductive ToolErr where
  | valueError
deriving DecidableEq, Repr

/-- The shared due-date block of add_task and update_task: due starts as
None; if due_date is truthy (a non-empty string), it is strptime-parsed as
%d/%m/%Y and re-rendered with %Y-%m-%dT%H:%M:%S.%fZ; a parse failure raises
ValueError there and then. -/
def convertDue : Option String → Except ToolErr (Option String)
  | none => .ok none
  | some s =>
      if s = "" then .ok none
      else
        match strptimeDMY s with
        | none => .error .valueError
        | some (y, m, d) => .ok (some (fmtMidnightZ y m d))

/-- The add_task tool: convert the due date, then (only on success) call the
facade. The returned list holds the facade calls that were made. -/
def add_task (tasklist_id title : String) (description due_date : Option String) :
    Except ToolErr Unit × List FacadeCall :=
  match convertDue due_date with
  | .error e => (.error e, [])
  | .ok due => (.ok (), [.taskAdd tasklist_id title description due])

/-- The update_task tool: convert the due date, then (only on success) call
the facade. -/
def update_task (tasklist_id task_id : String) (title description due_date : Option String) :
    Except ToolErr Unit × List FacadeCall :=
  match convertDue due_date with
  | .error e => (.error e, [])
  | .ok due => (.ok (), [.taskUpdate tasklist_id task_id title description due])

/-- The reading of "a string strictly in DD/MM/YYYY format" used by the
claim about due-date parsing, written from the words of the claim: exactly
two digits of day, a slash, exactly two digits of month, a slash, exactly
four digits of year, with the day in 01-31 and the month in 01-12. -/
def strictDDMMYYYYSpec (s : String) : Bool :=
  match s.toList with
  | [d1, d2, s1, m1, m2, s2, y1, y2, y3, y4] =>
      s1 == '/' && s2 == '/' &&
      [d1, d2, m1, m2, y1, y2, y3, y4].all (fun c => (digitVal c).isSome) &&
      (let dv := 10 * ((digitVal d1).getD 0) + (digitVal d2).getD 0
       let mv := 10 * ((digitVal m1).getD 0) + (digitVal m2).getD 0
       1 ≤ dv && dv ≤ 31 && 1 ≤ mv && mv ≤ 12)
  | _ => false

/-! ## TaskClient attribute table and the move_task tool (main.py 145-155)

The methods the TaskClient class body defines (task_client.py lines 11-113),
in source order. Attribute lookup on an instance falls back to this class
table; a name outside it raises AttributeError. -/

/-- The methods defined in the body of class TaskClient. -/
inductive TaskClientMethod where
  | init
  | from_oauth_config
  | tl_list
  | tl_add
  | tl_delete
  | tl_update
  | task_list
  | task_add
  | task_delete
  | task_update
  | task_complete
deriving DecidableEq, Repr

/-- getattr on a TaskClient instance for a method name: the class table. -/
def lookupMethod : String → Option TaskClientMethod
  | "__init__" => some .init
  | "from_oauth_config" => some .from_oauth_config
  | "tl_list" => some .tl_list
  | "tl_add" => some .tl_add
  | "tl_delete" => some .tl_delete
  | "tl_update" => some .tl_update
  | "task_list" => some .task_list
  | "task_add" => some .task_add
  | "task_delete" => some .task_delete
  | "task_update" => some .task_update
  | "task_complete" => some .task_complete
  | _ => none

/-- What the move_task tool does once it holds the client. -/
inductive MoveOutcome where
  | attributeError (attr : String)
  | invoked (m : TaskClientMethod) (tasklistId taskId newTasklistId : String)
deriving DecidableEq, Repr

/-- The move_task tool (main.py lines 145-155): look up task_move on the
client and call it with the three ids; if the attribute does not exist the
lookup raises AttributeError before any remote call. -/
def move_task (tasklist_id task_id new_tasklist_id : String) : MoveOutcome :=
  match lookupMethod "task_move" with
  | none => .attributeError "task_move"
  | some m => .invoked m tasklist_id task_id new_tasklist_id

/-! ## Concrete inputs used by counterexamples and witnesses -/

/-- A stored credential that is expired, carries a refresh token, and whose
refresh exchange fails (revoked); the interactive flow would succeed. -/
def envRevoked : OEnv :=
  { tokenFile := some (.stored ⟨true, true, true, ["https://www.googleapis.com/auth/tasks"]⟩),
    requestedScopes := ["https://www.googleapis.com/auth/tasks"],
    refreshResult := .error "invalid_grant",
    flowResult := .ok ⟨true, false, true, ["https://www.googleapis.com/auth/tasks"]⟩,
    writeOk := true }

/-- A token file that exists but is malformed. -/
def envMalformed : OEnv :=
  { tokenFile := some .malformed,
    requestedScopes := ["https://www.googleapis.com/auth/tasks"],
    refreshResult := .error "unused",
    flowResult := .ok ⟨true, false, true, ["https://www.googleapis.com/auth/tasks"]⟩,
    writeOk := true }

/-- No token file; the interactive flow succeeds but writing the token file
fails (disk write error). -/
def envDiskFull : OEnv :=
  { tokenFile := none,
    requestedScopes := ["https://www.googleapis.com/auth/tasks"],
    refreshResult := .error "unused",
    flowResult := .ok ⟨true, false, true, ["https://www.googleapis.com/auth/tasks"]⟩,
    writeOk := false }

/-- A stored credential that is expired with a refresh token; the refresh
exchange succeeds but writing the refreshed credential to the token file
fails (disk write error). -/
def envRefreshDiskFull : OEnv :=
  { tokenFile := some (.stored ⟨true, true, true, ["https://www.googleapis.com/auth/tasks"]⟩),
    requestedScopes := ["https://www.googleapis.com/auth/tasks"],
    refreshResult := .ok ⟨true, false, true, ["https://www.googleapis.com/auth/tasks"]⟩,
    flowResult := .error "unused",
    writeOk := false }

/-- An unexpired stored credential covering the requested scope. -/
def envValidStored : OEnv :=
  { tokenFile := some (.stored ⟨true, false, true, ["https://www.googleapis.com/auth/tasks"]⟩),
    requestedScopes := ["https://www.googleapis.com/auth/tasks"],
    refreshResult := .error "unused",
    flowResult := .error "unused",
    writeOk := true }

/-- An unexpired stored credential whose granted scopes do NOT cover the
requested ones. -/
def envScopeMismatch : OEnv :=
  { tokenFile := some (.stored ⟨true, false, true, ["scopeGrantedOnly"]⟩),
    requestedScopes := ["scopeRequested"],
    refreshResult := .error "unused",
    flowResult := .error "unused",
    writeOk := true }

/-- A fetched task resource with server-side fields beyond the modelled ones. -/
def d0 : Dict :=
  [("id", .str "T1"), ("title", .str "a"), ("notes", .str "b"),
   ("due", .str "c"), ("etag", .str "e")]

/-- A world in which the host timezone is UTC+05:30 and completeTask is
called at the UTC instant 2024-03-15T05:00:00Z. -/
def w0 : World := { utcNowUs := instantUs 2024 3 15 5 0 0 0, hostOffsetMin := 330 }

/-- The fetched task completeTask operates on in the w0 scenario. -/
def fetched0 : Dict :=
  [("id", .str "T1"), ("title", .str "Buy milk"), ("status", .str "needsAction")]

/-- The UTC instant at which the completeTask call of the w0 scenario
returns, one second after it started. -/
def retUs0 : Nat := instantUs 2024 3 15 5 0 1 0

/-! ## Helper lemmas about dictionaries -/

theorem dget_dset_self (d : Dict) (k : String) (v : JVal) : dget (dset d k v) k = some v := by
  induction d with
  | nil => simp [dset, dget]
  | cons h t ih =>
      obtain ⟨k1, v1⟩ := h
      by_cases hk : k1 = k
      · simp [dset, hk, dget]
      · simp [dset, hk, dget, ih]

theorem dget_dset_other (d : Dict) (k k2 : String) (v : JVal) (h : k2 ≠ k) :
    dget (dset d k v) k2 = dget d k2 := by
  have h2 : k ≠ k2 := Ne.symm h
  induction d with
  | nil => simp [dset, dget, h2]
  | cons hd t ih =>
      obtain ⟨k1, v1⟩ := hd
      by_cases hk : k1 = k
      · subst hk
        simp [dset, dget, h2]
      · simp [dset, hk, dget, ih]

/-- Helper: if the acquisition half of refreshOrFlow succeeds (by refresh or
by interactive flow) and the subsequent token-file write would succeed, then
the same acquisition with a failing write raises the write error, the same
acquisition effects having run and no file written. -/
theorem refreshOrFlow_write_failure (env : OEnv) (cr : Option Creds) (c : Creds) (tr : Trace)
    (h1 : refreshOrFlow { env with writeOk := true } cr = (.ok c, tr)) :
    refreshOrFlow { env with writeOk := false } cr =
      (.error .writeError, { tr with fileWritten := false }) := by
  rcases env with ⟨tf, rs, rr, fr, wo⟩
  rcases cr with _ | cc
  · rcases fr with fm | fc
    · simp [refreshOrFlow] at h1
    · simp [refreshOrFlow, persistAndReturn] at h1 ⊢
      obtain ⟨rfl, rfl⟩ := h1
      simp
  · by_cases hb : (cc.expired && cc.hasRefreshToken) = true
    · rcases rr with rm | rc
      · simp [refreshOrFlow, hb] at h1
      · simp [refreshOrFlow, hb, persistAndReturn] at h1 ⊢
        obtain ⟨rfl, rfl⟩ := h1
        simp
    · rcases fr with fm | fc
      · simp [refreshOrFlow, hb] at h1
      · simp [refreshOrFlow, hb, persistAndReturn] at h1 ⊢
        obtain ⟨rfl, rfl⟩ := h1
        simp

/-- Helper: the weekday rendering always lands in the table of the seven
English weekday names. -/
theorem weekdayName_mem (t : Nat) : weekdayName t ∈ weekdayNames := by
  unfold weekdayName
  have h : t / usPerDay % 7 < 7 := Nat.mod_lt _ (by decide)
  set k := t / usPerDay % 7 with hk
  interval_cases k <;> decide

/-! ## Claim theorems -/

/-- Claim C1 (code_bug evidence): the move_task tool looks up the attribute
task_move on the TaskClient instance, but the class defines no such method
(task_complete is its last definition), so every call raises AttributeError
before any remote request: no task is ever reassigned, and invalid ids never
get the chance to produce NotFoundError. Evaluated at the ids of the spec
scenario. -/
theorem move_task_attribute_error :
    move_task "L1" "T1" "L2" = .attributeError "task_move" ∧
    lookupMethod "task_move" = none ∧
    lookupMethod "task_complete" = some .task_complete := by
  decide

/-- Claim C2 (counterexample): with a stored credential that is expired and
carries a refresh token, a failing refresh exchange makes from_oauth_config
raise the refresh error; the interactive flow is NOT run (flowCalled is
false), contradicting the claimed fall-through. -/
theorem refresh_failure_counterexample :
    from_oauth_config envRevoked = (.error (.refreshError "invalid_grant"), ⟨true, false, false⟩) ∧
    (from_oauth_config envRevoked).2.flowCalled = false := by
  decide

/-- Claim C2 (amended): whenever the loaded credential is expired and has a
refresh token and the refresh exchange fails, the failure propagates to the
caller of from_oauth_config and the interactive flow is never attempted. -/
theorem refresh_failure_propagates (env : OEnv) (c : Creds) (m : String)
    (h1 : env.tokenFile = some (.stored c))
    (h2 : c.expired = true) (h3 : c.hasRefreshToken = true)
    (h4 : env.refreshResult = .error m) :
    from_oauth_config env = (.error (.refreshError m), ⟨true, false, false⟩) := by
  simp [from_oauth_config, loadCreds, h1, Creds.valid, h2, h3, refreshOrFlow, h4]

/-- Claim C2 witness: the amended statement applied to the concrete revoked
environment. -/
theorem refresh_failure_propagates_witness :
    from_oauth_config envRevoked = (.error (.refreshError "invalid_grant"), ⟨true, false, false⟩) :=
  refresh_failure_propagates envRevoked _ "invalid_grant" rfl rfl rfl rfl

/-- Claim C3 (counterexample): a token file that exists but is malformed
makes from_oauth_config raise at the loading stage (the ValueError of
Credentials.from_authorized_user_file propagates); nothing falls through to
refresh or interactive authorization. -/
theorem malformed_token_counterexample :
    from_oauth_config envMalformed = (.error .loadError, ⟨false, false, false⟩) := by
  decide

/-- Claim C3 (amended): a malformed token file is a fatal error at the
loading stage, not treated as absent; and granted scopes are never compared
with the requested scopes - the stored credential is loaded with the
requested scopes attached, so an unexpired credential is used directly even
when its granted scopes do not cover the requested ones. -/
theorem token_load_behavior :
    (∀ env : OEnv, env.tokenFile = some .malformed →
        from_oauth_config env = (.error .loadError, ⟨false, false, false⟩)) ∧
    (∀ (env : OEnv) (c : Creds), env.tokenFile = some (.stored c) →
        c.hasToken = true → c.expired = false →
        from_oauth_config env =
          (.ok { c with scopes := env.requestedScopes }, ⟨false, false, false⟩)) := by
  constructor
  · intro env h
    simp [from_oauth_config, loadCreds, h]
  · intro env c h1 h2 h3
    simp [from_oauth_config, loadCreds, h1, Creds.valid, h2, h3]

/-- Claim C3 witness: the amended statement applied to a concrete malformed
file and to a concrete unexpired credential with non-covering scopes. -/
theorem token_load_behavior_witness :
    from_oauth_config envMalformed = (.error .loadError, ⟨false, false, false⟩) ∧
    from_oauth_config envScopeMismatch =
      (.ok ⟨true, false, true, ["scopeRequested"]⟩, ⟨false, false, false⟩) :=
  ⟨token_load_behavior.1 envMalformed rfl,
   token_load_behavior.2 envScopeMismatch ⟨true, false, true, ["scopeGrantedOnly"]⟩ rfl rfl rfl⟩

/-- Claim C6 (counterexample): when the interactive flow succeeds but the
token-file write fails, from_oauth_config raises the write error: no handle
is returned at all, instead of the claimed warning-plus-usable-handle. -/
theorem persist_failure_counterexample :
    from_oauth_config envDiskFull = (.error .writeError, ⟨false, true, false⟩) := by
  decide

/-- Claim C6 (amended): whenever from_oauth_config would acquire a fresh
credential (via refresh or via the interactive flow) and persist it - that
is, with the write succeeding it returns the credential with the token file
written - the same acquisition with a failing token-file write makes the
write exception propagate out of from_oauth_config: the call fails, no
authenticated handle is returned for the process lifetime, and no
warning-level path exists. -/
theorem persist_failure_propagates (env : OEnv) (c : Creds) (tr : Trace)
    (h1 : from_oauth_config { env with writeOk := true } = (.ok c, tr))
    (h2 : tr.fileWritten = true) :
    from_oauth_config { env with writeOk := false } =
      (.error .writeError, { tr with fileWritten := false }) := by
  rcases env with ⟨tf, rs, rr, fr, wo⟩
  rcases tf with _ | (_ | ⟨ht, ex, hr, sc⟩)
  · simp only [from_oauth_config, loadCreds] at h1 ⊢
    exact refreshOrFlow_write_failure ⟨none, rs, rr, fr, wo⟩ none c tr h1
  · simp [from_oauth_config, loadCreds] at h1
  · cases ht <;> cases ex <;>
      simp only [from_oauth_config, loadCreds, Creds.valid, Bool.true_and, Bool.false_and,
        Bool.not_true, Bool.not_false, Bool.and_true, Bool.and_false,
        Bool.false_eq_true, if_false, if_true, ite_false, ite_true] at h1 h2 ⊢ <;>
    first
      | exact refreshOrFlow_write_failure ⟨some (.stored ⟨_, _, hr, sc⟩), rs, rr, fr, wo⟩ _ c tr h1
      | (obtain ⟨rfl, rfl⟩ := h1; simp at h2)

/-- Claim C6 witness: the amended statement applied to the concrete
disk-full environments, once acquiring by interactive flow and once by
refresh. -/
theorem persist_failure_propagates_witness :
    from_oauth_config envDiskFull = (.error .writeError, ⟨false, true, false⟩) ∧
    from_oauth_config envRefreshDiskFull = (.error .writeError, ⟨true, false, false⟩) :=
  ⟨persist_failure_propagates envDiskFull
      ⟨true, false, true, ["https://www.googleapis.com/auth/tasks"]⟩
      ⟨false, true, true⟩ (by decide) rfl,
   persist_failure_propagates envRefreshDiskFull
      ⟨true, false, true, ["https://www.googleapis.com/auth/tasks"]⟩
      ⟨true, false, true⟩ (by decide) rfl⟩

/-- Claim C7: a persisted credential that is unexpired (and whose granted
scopes cover the requested ones) makes a fresh from_oauth_config return a
ready handle holding that credential directly: no refresh call, no
interactive flow, no token write - no network call at all during
acquisition. -/
theorem obtain_roundtrip_no_network (env : OEnv) (c : Creds)
    (h1 : env.tokenFile = some (.stored c))
    (h2 : c.hasToken = true) (h3 : c.expired = false)
    (h4 : env.requestedScopes.all (fun s => c.scopes.contains s) = true) :
    from_oauth_config env =
      (.ok { c with scopes := env.requestedScopes }, ⟨false, false, false⟩) := by
  simp [from_oauth_config, loadCreds, h1, Creds.valid, h2, h3]

/-- Claim C7 witness: the round trip applied to a concrete unexpired,
scope-covering stored credential. -/
theorem obtain_roundtrip_no_network_witness :
    from_oauth_config envValidStored =
      (.ok ⟨true, false, true, ["https://www.googleapis.com/auth/tasks"]⟩,
       ⟨false, false, false⟩) :=
  obtain_roundtrip_no_network envValidStored
    ⟨true, false, true, ["https://www.googleapis.com/auth/tasks"]⟩ rfl rfl rfl (by decide)

/-- Claim C8 (counterexample): under the schedule in which both first
callers pass the None check before either assigns the module variable, the
interactive flow runs twice, the token file is written twice, and the two
callers finish with handles holding different credentials. -/
theorem concurrent_init_race_counterexample :
    (runSched racySched).flowCount = 2 ∧
    (runSched racySched).writeCount = 2 ∧
    (runSched racySched).t0.pc = 3 ∧
    (runSched racySched).t1.pc = 3 ∧
    (runSched racySched).t0.res ≠ (runSched racySched).t1.res := by
  decide

/-- Claim C8 (amended): get_task_client serializes nothing; only when the
two first calls happen not to interleave does initialization run exactly
once - one flow invocation, one token write, both callers holding the same
credential. -/
theorem serialized_init_once :
    (runSched serialSched).flowCount = 1 ∧
    (runSched serialSched).writeCount = 1 ∧
    (runSched serialSched).t0.pc = 3 ∧
    (runSched serialSched).t1.pc = 3 ∧
    (runSched serialSched).t0.res = (runSched serialSched).t1.res := by
  decide

/-- Claim C4 (code_bug evidence): completeTask does set status to completed,
but the completed field is strftime of datetime.now() - the NAIVE LOCAL
clock - with a literal Z appended. On a host at UTC+05:30, a call that
starts at 2024-03-15T05:00:00Z and returns by 05:00:01Z stores the string
rendering the instant 2024-03-15T10:30:00Z, which is strictly later than
the return time: the timestamp is not the current instant expressed in UTC
and does not lie between the start and the return of the call. -/
theorem task_complete_local_clock_bug :
    dget (task_complete_body fetched0 w0) "status" = some (.str "completed") ∧
    dget (task_complete_body fetched0 w0) "completed" =
      some (.str "2024-03-15T10:30:00.000000Z") ∧
    fmtMicroZ (instantUs 2024 3 15 10 30 0 0) = "2024-03-15T10:30:00.000000Z" ∧
    fmtMicroZ w0.utcNowUs = "2024-03-15T05:00:00.000000Z" ∧
    retUs0 < instantUs 2024 3 15 10 30 0 0 := by
  decide

/-- Claim C5: task_update overwrites exactly the fields whose argument was
supplied; a None argument leaves its field exactly as fetched, and every
other key of the fetched resource is preserved untouched. -/
theorem task_update_frame (current : Dict) (title description due : Option String) :
    (title = none →
      dget (task_update_body current title description due) "title" = dget current "title") ∧
    (description = none →
      dget (task_update_body current title description due) "notes" = dget current "notes") ∧
    (due = none →
      dget (task_update_body current title description due) "due" = dget current "due") ∧
    (∀ t, title = some t →
      dget (task_update_body current title description due) "title" = some (.str t)) ∧
    (∀ t, description = some t →
      dget (task_update_body current title description due) "notes" = some (.str t)) ∧
    (∀ t, due = some t →
      dget (task_update_body current title description due) "due" = some (.str t)) ∧
    (∀ k, k ≠ "title" → k ≠ "notes" → k ≠ "due" →
      dget (task_update_body current title description due) k = dget current k) := by
  cases title <;> cases description <;> cases due <;>
    refine ⟨?_, ?_, ?_, ?_, ?_, ?_, ?_⟩ <;>
    simp [task_update_body, dget_dset_self, dget_dset_other] <;>
    intro k h1 h2 h3 <;>
    simp [dget_dset_other _ _ _ _ h1, dget_dset_other _ _ _ _ h2, dget_dset_other _ _ _ _ h3]

/-- Claim C5 witness: updating only the title of a concrete fetched task
keeps notes, due and the unmodelled etag field as fetched and sets the
title. -/
theorem task_update_frame_witness :
    dget (task_update_body d0 (some "x") none none) "notes" = dget d0 "notes" ∧
    dget (task_update_body d0 (some "x") none none) "due" = dget d0 "due" ∧
    dget (task_update_body d0 (some "x") none none) "title" = some (.str "x") ∧
    dget (task_update_body d0 (some "x") none none) "etag" = dget d0 "etag" :=
  ⟨(task_update_frame d0 (some "x") none none).2.1 rfl,
   (task_update_frame d0 (some "x") none none).2.2.1 rfl,
   (task_update_frame d0 (some "x") none none).2.2.2.1 "x" rfl,
   (task_update_frame d0 (some "x") none none).2.2.2.2.2.2 "etag"
     (by decide) (by decide) (by decide)⟩

/-- Claim C9 (counterexample): the string 5/3/2024 does not match DD/MM/YYYY
(one-digit day and month), yet add_task raises nothing: strptime with
%d/%m/%Y accepts it and the facade is called with the converted due date
2024-03-05T00:00:00.000000Z. -/
theorem due_date_lenient_counterexample :
    strictDDMMYYYYSpec "5/3/2024" = false ∧
    add_task "L1" "Buy milk" none (some "5/3/2024") =
      (.ok (), [.taskAdd "L1" "Buy milk" none (some "2024-03-05T00:00:00.000000Z")]) := by
  decide

/-- Claim C9 (amended): a non-empty due_date is parsed with the CPython
strptime semantics of %d/%m/%Y - day and month of one or two digits, year of
exactly four, calendar-validated; accepted strings are converted to the
midnight timestamp (pattern ending in T00:00:00.000000Z) before the facade
is called, and rejected strings raise a date-parsing error before any facade
call, in add_task as well as update_task. -/
theorem due_date_conversion :
    (∀ (tl tid t : String) (topt desc : Option String) (s : String), s ≠ "" →
        strptimeDMY s = none →
        add_task tl t desc (some s) = (.error .valueError, []) ∧
        update_task tl tid topt desc (some s) = (.error .valueError, [])) ∧
    (∀ (tl tid t : String) (topt desc : Option String) (s : String) (y m d : Nat),
        strptimeDMY s = some (y, m, d) →
        add_task tl t desc (some s) =
          (.ok (), [.taskAdd tl t desc (some (fmtMidnightZ y m d))]) ∧
        update_task tl tid topt desc (some s) =
          (.ok (), [.taskUpdate tl tid topt desc (some (fmtMidnightZ y m d))])) ∧
    (∀ y m d : Nat, ∃ p, fmtMidnightZ y m d = p ++ "T00:00:00.000000Z") := by
  refine ⟨?_, ?_, ?_⟩
  · intro tl tid t topt desc s hs hp
    constructor <;> simp [add_task, update_task, convertDue, hs, hp]
  · intro tl tid t topt desc s y m d hp
    have hs : ¬s = "" := by
      intro he
      rw [he] at hp
      simp [strptimeDMY, parse12] at hp
    constructor <;> simp [add_task, update_task, convertDue, hs, hp]
  · intro y m d
    exact ⟨pad4 y ++ "-" ++ pad2 m ++ "-" ++ pad2 d, rfl⟩

/-- Claim C9 witness: the amended statement applied to a rejected ISO-format
string and to an accepted DD/MM/YYYY string. -/
theorem due_date_conversion_witness :
    add_task "L1" "t" none (some "2024-12-31") = (.error .valueError, []) ∧
    update_task "L1" "T1" none none (some "2024-12-31") = (.error .valueError, []) ∧
    add_task "L1" "t" none (some "31/12/2024") =
      (.ok (), [.taskAdd "L1" "t" none (some (fmtMidnightZ 2024 12 31))]) ∧
    ∃ p, fmtMidnightZ 2024 3 15 = p ++ "T00:00:00.000000Z" :=
  ⟨(due_date_conversion.1 "L1" "T1" "t" none none "2024-12-31" (by decide) (by decide)).1,
   (due_date_conversion.1 "L1" "T1" "t" none none "2024-12-31" (by decide) (by decide)).2,
   (due_date_conversion.2.1 "L1" "T1" "t" none none "31/12/2024" 2024 12 31 (by decide)).1,
   due_date_conversion.2.2 2024 3 15⟩

/-- Claim C10: the get_current_datetime tool returns a record with the
single key local_time; its value is the isoformat rendering of the current
UTC instant shifted to the fixed UTC+05:30 zone (the rendered offset suffix
is literally +05:30), followed by a space and an English weekday name; and
the result is the same whatever the host machine timezone offset is. -/
theorem get_current_datetime_contract (w : World) :
    (get_current_datetime w).map Prod.fst = ["local_time"] ∧
    (∀ o : Int, get_current_datetime { utcNowUs := w.utcNowUs, hostOffsetMin := o } =
        get_current_datetime w) ∧
    ∃ p, isoformatAware (ist_wall_us w) 330 = p ++ "+05:30" ∧
      get_current_datetime w =
        [("local_time",
          isoformatAware (ist_wall_us w) 330 ++ " " ++ weekdayName (ist_wall_us w))] ∧
      weekdayName (ist_wall_us w) ∈ weekdayNames := by
  refine ⟨rfl, fun o => rfl, isoDateTimePart (ist_wall_us w), ?_, rfl, weekdayName_mem _⟩
  show isoDateTimePart (ist_wall_us w) ++ utcoffsetStr 330 =
    isoDateTimePart (ist_wall_us w) ++ "+05:30"
  exact congrArg (fun x => isoDateTimePart (ist_wall_us w) ++ x) (by decide)
